import Mathlib

/-!
# Verification of the Casper snap transaction decoding / signing core

Shallow embedding of the snap's transaction decoding, argument formatting and
signature-attachment core (`packages/snap/src/utils.ts` and the sign flow of
`packages/snap/src/index.tsx`), together with theorems settling the frozen
claims about this code.

Conventions:
* JavaScript byte arrays (`Uint8Array`, `Buffer`) are modelled as `List Nat`.
* JavaScript exceptions are modelled with `Except String` / `Option`.
* External collaborators (BIP44 key derivation, the confirmation dialog, the
  casper-js-sdk validation routine) appear as explicit parameters, since they
  are outside the repository and the spec treats them as external interfaces.
-/

namespace CasperSnap

/-! ## Small string helpers -/

/-- Decimal digits of a nat as a string (`Nat.toString`). -/
def natDec (n : Nat) : String := toString n

/-- Interpret a list of decimal digit characters as a natural number.
All call sites guarantee the characters are digits. -/
def digitsToNat (cs : List Char) : Nat :=
  cs.foldl (fun acc c => acc * 10 + (c.toNat - '0'.toNat)) 0

/-- Left-pad a digit string with zeros up to length `n`
(the `while (fraction.length < multiplier.length - 1)` loop of `formatFixed`). -/
def padLeftZeros (s : String) (n : Nat) : String :=
  String.mk (List.replicate (n - s.length) '0') ++ s

/-- Strip trailing zeros from a digit string, keeping `"0"` when everything is
a zero: the effect of the `fraction.match(...)` regular expression group
`([0-9]*[1-9]|0)` in ethers' `formatFixed`. -/
def stripTrailingZeros (s : String) : String :=
  let kept := (s.data.reverse.dropWhile (fun c => c = '0')).reverse
  if kept.isEmpty then "0" else String.mk kept

/-- Lowercase hex digit for a value `< 16`. -/
def hexDigit (n : Nat) : Char :=
  if n < 10 then Char.ofNat ('0'.toNat + n) else Char.ofNat ('a'.toNat + (n - 10))

/-- Lowercase hex encoding of one byte. -/
def byteHex (b : Nat) : String :=
  String.mk [hexDigit (b / 16 % 16), hexDigit (b % 16)]

/-- Lowercase hex encoding of a byte list: models `toHex()` /
`Conversions.encodeBase16` on a `Uint8Array`. -/
def bytesToHex (bs : List Nat) : String :=
  String.join (bs.map byteHex)

/-- Models JavaScript `Uint8Array.prototype.toString()`: the decimal bytes
joined with commas. -/
def uint8ArrayToString (bs : List Nat) : String :=
  String.intercalate "," (bs.map natDec)

/-! ## ethers v5 `FixedNumber` model (`@ethersproject/bignumber`)

`convertMotesToCasper` in `utils.ts` computes
`FixedNumber.from(motesAmount).divUnsafe(FixedNumber.from(1000000000)).toString()`.
With the default `fixed128x18` format this is fixed-point arithmetic with 18
decimal places.  `parseFixed18` models `parseFixed(value, 18)` (`none` models a
thrown error), `formatFixed18` models `formatFixed(value, 18)`, which is also
what `FixedNumber.toString()` returns. -/

/-- Split a character list at `'.'` separators (models the JavaScript
`value.split(".")` used by `parseFixed`). -/
def splitOnDot : List Char → List (List Char)
  | [] => [[]]
  | c :: cs =>
    let rest := splitOnDot cs
    if c = '.' then [] :: rest
    else
      match rest with
      | [] => [[c]]
      | r :: rs => (c :: r) :: rs

example : splitOnDot "1.5".data = ["1".data, "5".data] := by decide
example : splitOnDot "15".data = ["15".data] := by decide
example : splitOnDot "1.".data = ["1".data, [] ] := by decide
example : splitOnDot ".".data = [[], [] ] := by decide

/-- The regular expression gate `value.match(/^-?[0-9.]+$/)` of `parseFixed`. -/
def fixedStringOk (s : String) : Bool :=
  let cs := if s.data.head? = some '-' then s.data.tail else s.data
  !cs.isEmpty && cs.all (fun c => c.isDigit || c = '.')

/-- `parseFixed(value, 18)` from ethers v5: parse a decimal string into a
fixed-point integer scaled by `10^18`.  `none` models the thrown
`invalid decimal value` / `fractional component exceeds decimals` errors. -/
def parseFixed18 (value : String) : Option Int :=
  if !fixedStringOk value then none
  else
    let negative := value.data.head? = some '-'
    let body := if negative then String.mk value.data.tail else value
    if body = "." then none
    else
      let comps := splitOnDot body.data
      if comps.length > 2 then none
      else
        let whole := if comps.headD [] = [] then ['0'] else comps.headD []
        let fraction := if (comps.getD 1 []) = [] then ['0'] else comps.getD 1 []
        -- trim trailing zeros
        let fraction := (fraction.reverse.dropWhile (fun c => c = '0')).reverse
        if fraction.length > 18 then none
        else
          let fraction := if fraction = [] then ['0'] else fraction
          -- fully pad (right) to 18 digits
          let fraction := fraction ++ List.replicate (18 - fraction.length) '0'
          let wei : Int := (digitsToNat whole : Int) * (10 : Int) ^ 18 + (digitsToNat fraction : Int)
          some (if negative then -wei else wei)

/-- `formatFixed(value, 18)` from ethers v5, which is also the string stored in
a `FixedNumber` and returned by its `toString()`: always renders a decimal
point with at least one fractional digit. -/
def formatFixed18 (value : Int) : String :=
  let v := value.natAbs
  let fraction := stripTrailingZeros (padLeftZeros (natDec (v % 10 ^ 18)) 18)
  let whole := natDec (v / 10 ^ 18)
  (if value < 0 then "-" else "") ++ whole ++ "." ++ fraction

/-- `convertMotesToCasper` from `packages/snap/src/utils.ts` (lines 144-153):
`FixedNumber.from(motesAmount).divUnsafe(FixedNumber.from(1000000000)).toString()`
inside a `try`, returning `"0"` on any thrown conversion error.
`divUnsafe` computes `a.mul(10^18).div(b)` with `div` truncating toward zero. -/
def convertMotesToCasper (motesAmount : String) : String :=
  match parseFixed18 motesAmount with
  | none => "0"
  | some a =>
    match parseFixed18 "1000000000" with
    | none => "0"
    | some b =>
      if b = 0 then "0"
      else formatFixed18 (Int.tdiv (a * (10 : Int) ^ 18) b)

example : convertMotesToCasper "10000000000" = "10.0" := by decide
example : convertMotesToCasper "1" = "0.000000001" := by decide
example : convertMotesToCasper "abc" = "0" := by decide
example : convertMotesToCasper "10000000000000" = "10000.0" := by decide
example : convertMotesToCasper "" = "0" := by decide
example : convertMotesToCasper "1.5" = "0.0000000015" := by decide

/-! ## The `CLValue` tagged union and `parseDeployArg`

`parseDeployArg` in `utils.ts` dispatches on `arg.type.getTypeID()` over the
casper-js-sdk `CLValue` class hierarchy.  The hierarchy is embedded as a closed
sum: each constructor corresponds to one `TypeID` handled by the `switch`, and
carries the data the formatter actually reads from the SDK object.  String
renderings computed by the SDK itself (`Key.toString()`, `URef.toString()`,
`CLValueByteArray.toString()`, the public key hex, the account hash's prefixed
string, the generic `CLValue.toString()` of the `default` branch) are carried
as string fields, since the SDK is an external dependency. -/

inductive CLValue where
  /-- `TypeID.Unit` -/
  | unit
  /-- `TypeID.Key`; carries `Key.toString()`. -/
  | key (repr : String)
  /-- `TypeID.URef`; carries `URef.toString()`. -/
  | uref (repr : String)
  /-- `TypeID.Option`; `inner` is the contained value when the option is
  non-empty, `typeRepr` carries `option.type.toString()`, `selfRepr` carries
  the option's own `toString()`. -/
  | option (inner : Option CLValue) (typeRepr : String) (selfRepr : String)
  /-- `TypeID.List`; `vecType` carries the `vectorType` property. -/
  | list (vecType : String) (elements : List CLValue)
  /-- `TypeID.ByteArray`; carries its `toString()`. -/
  | byteArray (repr : String)
  /-- `TypeID.Result`; `isSuccess` flag plus the inner `value()`. -/
  | result (isSuccess : Bool) (inner : CLValue)
  /-- `TypeID.Map`; the entries of `getMap()` in insertion order. -/
  | map (entries : List (String × CLValue))
  /-- `TypeID.Tuple1` -/
  | tuple1 (fst : CLValue)
  /-- `TypeID.Tuple2` -/
  | tuple2 (fst snd : CLValue)
  /-- `TypeID.Tuple3` -/
  | tuple3 (fst snd trd : CLValue)
  /-- `TypeID.PublicKey`; carries `publicKey?.toHex()` (`none` when absent). -/
  | publicKey (hex : Option String)
  /-- An `AccountHash` instance (no `TypeID`; recognised in the `default`
  branch by `instanceof`); carries `toPrefixedString()`. -/
  | accountHash (prefixedRepr : String)
  /-- Any other tag (numbers, strings, ...): the `default` branch; carries the
  value's generic `toString()`. -/
  | raw (repr : String)
deriving Repr

/-- The result of `parseDeployArg`: `string | any[]` in the source, where the
array elements produced by `sanitiseNestedLists` are always strings. -/
inductive DisplayValue where
  | str (s : String)
  | arr (elems : List String)
deriving Repr, DecidableEq

/-- JavaScript template-literal coercion `${x as string}` applied to a
`string | any[]` value: an array is joined with commas. -/
def displayToString : DisplayValue → String
  | .str s => s
  | .arr elems => String.intercalate "," elems

/-- The `value.vectorType` property read by `sanitiseNestedLists`: only list
values have it, any other value yields JavaScript `undefined`, which the
template literal renders as `"undefined"`. -/
def vectorTypeProp : CLValue → String
  | .list vecType _ => vecType
  | _ => "undefined"

/-- The body of `sanitiseNestedLists` after its `parseDeployArg(value)` call:
collapse a list-shaped parse result to `<vectorType>[...]`, keep a string. -/
def collapseParsed (parsedValue : DisplayValue) (vecTypeProp : String) : String :=
  match parsedValue with
  | .arr _ => "<" ++ vecTypeProp ++ ">[...]"
  | .str s => s

mutual

/-- `parseDeployArg` from `packages/snap/src/utils.ts` (lines 46-110). -/
def parseDeployArg : CLValue → DisplayValue
  | .unit => .str "CLValue Unit"
  | .key repr => .str repr
  | .uref repr => .str repr
  | .option (some inner) _ _ => parseDeployArg inner
  | .option none typeRepr selfRepr => .str (selfRepr ++ " " ++ typeRepr)
  | .list _ elements => .arr (sanitiseElements elements)
  | .byteArray repr => .str repr
  | .result isSuccess inner =>
    .str ((if isSuccess then "OK:" else "ERR:") ++ " " ++ displayToString (parseDeployArg inner))
  | .map entries => .str (parseMapEntries entries)
  | .tuple1 fst => parseDeployArg fst
  | .tuple2 fst snd =>
    .arr [collapseParsed (parseDeployArg fst) (vectorTypeProp fst),
          collapseParsed (parseDeployArg snd) (vectorTypeProp snd)]
  | .tuple3 fst snd trd =>
    .arr [collapseParsed (parseDeployArg fst) (vectorTypeProp fst),
          collapseParsed (parseDeployArg snd) (vectorTypeProp snd),
          collapseParsed (parseDeployArg trd) (vectorTypeProp trd)]
  | .publicKey hex => .str (hex.getD "")
  | .accountHash prefixedRepr => .str prefixedRepr
  | .raw repr => .str repr
termination_by structural arg => arg

/-- The `elements.map((member) => sanitiseNestedLists(member))` loop of the
`TypeID.List` branch. -/
def sanitiseElements : List CLValue → List String
  | [] => []
  | v :: vs => collapseParsed (parseDeployArg v) (vectorTypeProp v) :: sanitiseElements vs
termination_by structural l => l

/-- The `TypeID.Map` accumulation loop:
`mapParsedString += key + "=" + (parseDeployArg(value) as string)`. -/
def parseMapEntries : List (String × CLValue) → String
  | [] => ""
  | (k, v) :: rest => k ++ "=" ++ displayToString (parseDeployArg v) ++ parseMapEntries rest
termination_by structural l => l

end

/-- `sanitiseNestedLists` from `packages/snap/src/utils.ts` (lines 31-38). -/
def sanitiseNestedLists (value : CLValue) : String :=
  collapseParsed (parseDeployArg value) (vectorTypeProp value)

example : parseDeployArg (.map []) = .str "" := by decide
example : parseDeployArg (.map [("a", .raw "1"), ("b", .raw "2")]) = .str "a=1b=2" := by decide
example : parseDeployArg (.list "U8" [.raw "1", .list "U8" [.raw "2"]])
    = .arr ["1", "<U8>[...]"] := by decide
example : parseDeployArg (.tuple2 (.raw "x") (.tuple2 (.raw "y") (.raw "z")))
    = .arr ["x", "<undefined>[...]"] := by decide
example : parseDeployArg (.option none "(Option: U64)" "Empty")
    = .str "Empty (Option: U64)" := by decide
example : parseDeployArg (.result false (.raw "bad")) = .str "ERR: bad" := by decide
example : parseDeployArg (.publicKey none) = .str "" := by decide

/-! ## Transaction model and `transactionToObject` -/

/-- Modelled from the spec: the casper-js-sdk's `CLValue.toString()` — the
"raw argument's own formatted string" used by `parseTransferData` for the
`target`, `amount` and `id` arguments.  The SDK is not part of `src/`; the
model renders the carried SDK string of scalar values (which is all the
transfer arguments use) and falls back to the carried representation
elsewhere. -/
def clvToString : CLValue → String
  | .unit => ""
  | .key repr => repr
  | .uref repr => repr
  | .option _ _ selfRepr => selfRepr
  | .list vecType _ => vecType
  | .byteArray repr => repr
  | .result _ _ => ""
  | .map _ => ""
  | .tuple1 _ => ""
  | .tuple2 _ _ => ""
  | .tuple3 _ _ _ => ""
  | .publicKey hex => hex.getD ""
  | .accountHash prefixedRepr => prefixedRepr
  | .raw repr => repr

/-- An ordered argument table: the `args.args` map (`Map<string, CLValue>`) of
an `ExecutableDeployItem` session or a transaction payload, in insertion
order. -/
abbrev NamedArgs := List (String × CLValue)

/-- `args.get(name)` on the SDK's argument map. -/
def argsGet (args : NamedArgs) (name : String) : Option CLValue :=
  (List.find? (fun p => p.1 == name) args).map (fun p => p.2)

/-- A value stored in the display object built for MetaMask: JavaScript
`undefined` (an argument that was absent), a string, or an array of strings. -/
inductive ArgVal where
  | jsUndefined
  | s (v : String)
  | arr (vs : List String)
deriving Repr, DecidableEq, Inhabited

/-- Coerce an optional string (`x?.toString()`) to the stored property. -/
def optToArg : Option String → ArgVal
  | some v => .s v
  | none => .jsUndefined

/-- Coerce a `parseDeployArg` result to the stored property. -/
def displayToArgVal : DisplayValue → ArgVal
  | .str s => .s s
  | .arr elems => .arr elems

/-- JavaScript object property assignment `obj[key] = v`: replaces the value
of an existing key in place (keeping its position in insertion order),
otherwise appends the new key at the end. -/
def insertObj (obj : List (String × ArgVal)) (key : String) (v : ArgVal) :
    List (String × ArgVal) :=
  if obj.any (fun p => p.1 == key) then
    obj.map (fun p => if p.1 == key then (key, v) else p)
  else
    obj ++ [(key, v)]

/-- The `args.args.forEach((argument, key) => deployArgs[key] = parseDeployArg(argument))`
loops of `transactionToObject`. -/
def insertParsedArgs (obj : List (String × ArgVal)) : NamedArgs → List (String × ArgVal)
  | [] => obj
  | (key, argument) :: rest =>
    insertParsedArgs (insertObj obj key (displayToArgVal (parseDeployArg argument))) rest

/-- `session.transfer`: a `TransferDeployItem` (its named arguments). -/
structure TransferDeployItem where
  args : NamedArgs

/-- `session.moduleBytes`: a `ModuleBytes` item (its named arguments). -/
structure ModuleBytes where
  args : NamedArgs

/-- Any of the four stored-contract session items: named arguments plus the
`entryPoint` name. -/
structure StoredContract where
  args : NamedArgs
  entryPoint : String

/-- The SDK's `ExecutableDeployItem`: at most one of the variant fields is
populated (the code only reads presence and the populated field).
`sessionBytes` models `session.bytes()`, the serialized session code. -/
structure ExecutableDeployItem where
  transfer : Option TransferDeployItem := none
  moduleBytes : Option ModuleBytes := none
  storedContractByHash : Option StoredContract := none
  storedContractByName : Option StoredContract := none
  storedVersionedContractByHash : Option StoredContract := none
  storedVersionedContractByName : Option StoredContract := none
  sessionBytes : List Nat := []

/-- `deploy.header`: the fields `transactionToObject` reads. -/
structure DeployHeader where
  bodyHashHex : Option String := none
  gasPrice : Nat := 1

/-- A legacy deploy (`transaction.getDeploy()`). -/
structure Deploy where
  header : DeployHeader := {}
  session : ExecutableDeployItem

/-- `deploy.isTransfer()` in the SDK: the session's transfer field is set. -/
def Deploy.isTransfer (d : Deploy) : Bool := d.session.transfer.isSome

/-- `session.isModuleBytes()` in the SDK. -/
def ExecutableDeployItem.isModuleBytes (s : ExecutableDeployItem) : Bool :=
  s.moduleBytes.isSome

/-- `session.isStoredContractByHash()` in the SDK. -/
def ExecutableDeployItem.isStoredContractByHash (s : ExecutableDeployItem) : Bool :=
  s.storedContractByHash.isSome

/-- `session.isStoredContractByName()` in the SDK. -/
def ExecutableDeployItem.isStoredContractByName (s : ExecutableDeployItem) : Bool :=
  s.storedContractByName.isSome

/-- A V1 transaction (`transaction.getTransactionV1()`): the fields
`transactionToObject` reads through the `Transaction` getters.
`entryPointBytes` models `transaction.entryPoint.toBytes()`;
`entryPointCustom`/`entryPointType` model
`transaction.entryPoint.customEntryPoint` and `transaction.entryPoint.type`. -/
structure TransactionV1 where
  args : NamedArgs
  entryPointCustom : Option String := none
  entryPointType : String := ""
  entryPointBytes : List Nat := []

/-- `transaction.initiatorAddr`: either a public key or an account hash. -/
structure InitiatorAddr where
  publicKeyHex : Option String := none
  accountHashHex : Option String := none

/-- The signature algorithm invoked by the curve dispatch in `sign` /
`signMessage` (`packages/snap/src/index.tsx`): `nacl.sign_detached` for
`"ed25519"`, the deterministic `ecdsaSign` of
`ethereum-cryptography/secp256k1-compat` for `"secp256k1"`. -/
inductive SigAlg where
  | ed25519Detached
  | secp256k1Ecdsa
deriving Repr, DecidableEq

/-- The bytes handed to the signature primitive: either raw bytes, or the
SHA-256 digest of some bytes (`sha256(...)` from `ethereum-cryptography`
is an external primitive, kept symbolic). -/
inductive SignedPayload where
  | rawBytes (bytes : List Nat)
  | sha256Digest (bytes : List Nat)
deriving Repr, DecidableEq

/-- A produced signature, kept symbolic: which algorithm was run, over which
payload, with which private key bytes. -/
structure SigBytes where
  alg : SigAlg
  payload : SignedPayload
  privateKey : List Nat
deriving Repr, DecidableEq

/-- One entry of `transaction.approvals`: the signer's public key (hex) plus
the signature. -/
structure Approval where
  signerHex : String
  signature : SigBytes
deriving Repr, DecidableEq

/-- The SDK `Transaction` wrapper as read by the snap: canonical hash bytes,
initiator, chain name, the rendered timestamp
(`new Date(transaction.timestamp.date).toLocaleString()`, carried as a string
since locale rendering is host behaviour), the two encoding variants, and the
attached approvals. -/
structure Transaction where
  hash : List Nat := []
  initiatorAddr : InitiatorAddr := {}
  chainName : String := ""
  timestampDisplay : String := ""
  deploy : Option Deploy := none
  transactionV1 : Option TransactionV1 := none
  approvals : List Approval := []

/-- The object `transactionToObject` returns (the uniform transaction view
shown to the user).  `gasPrice` is `none` in the V1 branch, whose object
literal has no such property. -/
structure DeployView where
  deployHash : String
  signingKey : String
  account : Option String
  bodyHash : Option String
  chainName : String
  timestamp : String
  gasPrice : Option String
  deployType : String
  deployArgs : List (String × ArgVal)
deriving Repr, DecidableEq, Inhabited

/-- `parseTransferData` from `packages/snap/src/utils.ts` (lines 118-136). -/
def parseTransferData (transferDeploy : TransferDeployItem) : List (String × ArgVal) :=
  let amount := ((argsGet transferDeploy.args "amount").map clvToString).getD ""
  let id := (argsGet transferDeploy.args "id").map clvToString
  [("Recipient", optToArg ((argsGet transferDeploy.args "target").map clvToString)),
   ("Amount", .s (convertMotesToCasper amount ++ " CSPR")),
   ("Motes", .s amount),
   ("Transfer ID", optToArg id)]

/-- The `type` classification of the legacy-deploy branch of
`transactionToObject` (lines 174-186): the `if`/`else if` chain over the
session variant, in source order. -/
def classifySession (deploy : Deploy) : String :=
  if deploy.isTransfer then "Transfer"
  else if deploy.session.isModuleBytes then "WASM-Based Deploy"
  else if deploy.session.isStoredContractByHash || deploy.session.isStoredContractByName then
    "Contract Call"
  else "Contract Package Call"

/-- The stored-contract selection chain of `transactionToObject`
(lines 195-207): first populated field among the four sub-variants. -/
def storedContractOf (s : ExecutableDeployItem) : Option StoredContract :=
  s.storedContractByHash <|> s.storedContractByName <|>
    s.storedVersionedContractByHash <|> s.storedVersionedContractByName

/-- The thrown `Stored Contract could not be parsed` message (lines 205-206):
a template literal with an escaped newline and a continuation line indented by
ten spaces, carrying `deploy.session.bytes().toString()`. -/
def unparseableSessionMsg (s : ExecutableDeployItem) : String :=
  "Stored Contract could not be parsed.\n          Provided session code: "
    ++ uint8ArrayToString s.sessionBytes

/-- The `deployArgs` object built by the legacy-deploy branch of
`transactionToObject` (lines 187-213); `.error` models the `throw` for an
unrecognised session. -/
def sessionDeployArgs (s : ExecutableDeployItem) : Except String (List (String × ArgVal)) :=
  match s.transfer with
  | some transfer => .ok (parseTransferData transfer)
  | none =>
    match s.moduleBytes with
    | some mb => .ok (insertParsedArgs [] mb.args)
    | none =>
      match storedContractOf s with
      | some storedContract =>
        .ok (insertObj (insertParsedArgs [] storedContract.args)
              "Entry Point" (.s storedContract.entryPoint))
      | none => .error (unparseableSessionMsg s)

/-- The `deployAccount` computation of `transactionToObject` (lines 166-168):
the initiator's public key hex when present, else its account-hash hex. -/
def initiatorAccount (initiator : InitiatorAddr) : Option String :=
  match initiator.publicKeyHex with
  | some hex => some hex
  | none => initiator.accountHashHex

/-- `transactionToObject` from `packages/snap/src/utils.ts` (lines 162-243).
`.error` models the function throwing. -/
def transactionToObject (transaction : Transaction) (signingKey : String) :
    Except String DeployView :=
  let deployAccount := initiatorAccount transaction.initiatorAddr
  match transaction.deploy with
  | some deploy =>
    (sessionDeployArgs deploy.session).map (fun deployArgs =>
      { deployHash := bytesToHex transaction.hash
        signingKey := signingKey
        account := deployAccount
        bodyHash := deploy.header.bodyHashHex
        chainName := transaction.chainName
        timestamp := transaction.timestampDisplay
        gasPrice := some (natDec deploy.header.gasPrice)
        deployType := classifySession deploy
        deployArgs := deployArgs })
  | none =>
    match transaction.transactionV1 with
    | some v1 =>
      .ok { deployHash := bytesToHex transaction.hash
            signingKey := signingKey
            account := deployAccount
            bodyHash := some (bytesToHex v1.entryPointBytes)
            chainName := transaction.chainName
            timestamp := transaction.timestampDisplay
            gasPrice := none
            deployType := v1.entryPointCustom.getD v1.entryPointType
            deployArgs := insertParsedArgs [] v1.args }
    | none => .error "Unsupported transaction type"

/-! ## Signature attachment and the `sign` flow (`packages/snap/src/index.tsx`) -/

/-- Modelled from the spec: the casper-js-sdk's `Transaction.setSignature`
(external to `src/`) — "attach the signature plus the signer's public key to
the Transaction": the transaction's approvals become the attached
signature/signer pair. -/
def setSignature (transaction : Transaction) (signature : SigBytes)
    (publicKeyHex : String) : Transaction :=
  { transaction with approvals := [⟨publicKeyHex, signature⟩] }

/-- The result of the `sign` operation as surfaced to the RPC caller. -/
inductive SignResult where
  | declinedFalse
  | deployJson (wire : String)
  | errorMsg (msg : String)
  | threw (msg : String)
deriving Repr, DecidableEq

/-- `addSignatureAndValidateTransaction` from `packages/snap/src/utils.ts`
(lines 253-264).  `validate` and `toJson` are the casper-js-sdk's
`Transaction.validate()` and `Transaction.toJSON` — external collaborators,
passed as parameters.  The first component of the result is the transaction
object after the mutation performed by `setSignature`. -/
def addSignatureAndValidateTransaction (validate : Transaction → Bool)
    (toJson : Transaction → String) (transaction : Transaction)
    (signature : SigBytes) (publicKeyHex : String) : Transaction × SignResult :=
  let signed := setSignature transaction signature publicKeyHex
  if validate signed then (signed, .deployJson (toJson signed))
  else (signed, .errorMsg "Unable to verify deploy after signature.")

/-- The key returned by the BIP44 deriver for an index: curve identifier,
private key bytes (absent models `privateKeyBytes` being `undefined`), and
the outcome of `PublicKey.fromBytes(compressed...).toHex()` in
`getCSPRAddress` (`none` models that call throwing, which `getCSPRAddress`
catches and turns into an `{error}` object with no `publicKey`). -/
structure BIP44Key where
  curve : String
  privateKeyBytes : Option (List Nat)
  pubKeyHexResult : Option String
deriving Repr, DecidableEq

/-- The external collaborators of one `sign` invocation: the BIP44 key
deriver (`.error` models the deriver throwing, e.g. for a negative index),
the user's answer to the confirmation dialog, and the SDK validation /
serialization used after attaching. -/
structure SignEnv where
  deriveKey : Int → Except String BIP44Key
  confirm : Bool
  validate : Transaction → Bool
  toJson : Transaction → String

/-- Observable steps of one `sign` invocation, in order. -/
inductive Event where
  | keyDerivation (index : Int)
  | promptShown
  | primitiveSign (alg : SigAlg) (payload : SignedPayload)
  | attachedSignature
deriving Repr, DecidableEq

/-- `getCSPRAddress` from `packages/snap/src/index.tsx`: derives the key at
`addressIndex` (the deriver call sits outside the `try`, so a deriver error
propagates as a thrown exception, modelled by `.error`), then converts the
compressed public key to hex inside the `try`.  `.ok (some hex)` models
`{publicKey: hex}`; `.ok none` models the caught-conversion `{error}` object,
whose `publicKey` property is `undefined`. -/
def getCSPRAddress (env : SignEnv) (addressIndex : Int) :
    Except String (Option String) :=
  match env.deriveKey addressIndex with
  | .error e => .error e
  | .ok addressKey => .ok addressKey.pubKeyHexResult

/-- The full outcome of one `sign` invocation: the value returned (or thrown),
the collaborator/crypto steps that were performed, and the final state of the
parsed transaction object (`none` when no transaction was ever parsed). -/
structure SignOut where
  result : SignResult
  events : List Event
  finalTx : Option Transaction

/-- The message produced by `sign`'s `catch` block
(`` `${JSON.stringify(error)} ${error} Unable to convert json into deploy object.` ``),
abstracted over the stringification of the thrown error. -/
def catchMessage (e : String) : String :=
  e ++ " Unable to convert json into deploy object."

/-- `sign` from `packages/snap/src/index.tsx` (lines 243-308).

`deployJson` is the outcome of `Transaction.fromJson(deployJson)` (an external
SDK parse: `.error` models it throwing, which the surrounding `try` catches).
The control flow follows the source: `getCSPRAddress` first (a deriver error
thrown there escapes `sign` — `.threw`); then, inside the `try`: parse, derive
the address key again, decode and show the confirmation dialog
(`promptUserDeployInfo` calls `transactionToObject`, whose `throw` is caught
by the same `catch`); on decline return `false`; otherwise dispatch on the
curve tag and attach-and-validate. -/
def sign (env : SignEnv) (deployJson : Except String Transaction)
    (addressIndex : Int) : SignOut :=
  match getCSPRAddress env addressIndex with
  | .error e => ⟨.threw e, [.keyDerivation addressIndex], none⟩
  | .ok none =>
    ⟨.errorMsg ("Unable to get public key at index " ++ toString addressIndex ++ "."),
     [.keyDerivation addressIndex], none⟩
  | .ok (some publicKeyHex) =>
    match deployJson with
    | .error e => ⟨.errorMsg (catchMessage e), [.keyDerivation addressIndex], none⟩
    | .ok transaction =>
      match env.deriveKey addressIndex with
      | .error e =>
        ⟨.errorMsg (catchMessage e),
         [.keyDerivation addressIndex, .keyDerivation addressIndex], some transaction⟩
      | .ok addressKey =>
        match transactionToObject transaction publicKeyHex with
        | .error e =>
          ⟨.errorMsg (catchMessage e),
           [.keyDerivation addressIndex, .keyDerivation addressIndex], some transaction⟩
        | .ok _deployInfo =>
          let events := [.keyDerivation addressIndex, .keyDerivation addressIndex,
                         .promptShown]
          if !env.confirm then ⟨.declinedFalse, events, some transaction⟩
          else
            match addressKey.privateKeyBytes with
            | none =>
              ⟨.errorMsg ("No private key associated with the account "
                  ++ toString addressIndex ++ "."), events, some transaction⟩
            | some privateKeyBytes =>
              if addressKey.curve = "ed25519" then
                let signature : SigBytes :=
                  ⟨.ed25519Detached, .rawBytes transaction.hash, privateKeyBytes⟩
                let r := addSignatureAndValidateTransaction env.validate env.toJson
                  transaction signature publicKeyHex
                ⟨r.2,
                 events ++ [.primitiveSign .ed25519Detached (.rawBytes transaction.hash),
                            .attachedSignature], some r.1⟩
              else if addressKey.curve = "secp256k1" then
                let signature : SigBytes :=
                  ⟨.secp256k1Ecdsa, .sha256Digest transaction.hash, privateKeyBytes⟩
                let r := addSignatureAndValidateTransaction env.validate env.toJson
                  transaction signature publicKeyHex
                ⟨r.2,
                 events ++ [.primitiveSign .secp256k1Ecdsa (.sha256Digest transaction.hash),
                            .attachedSignature], some r.1⟩
              else
                ⟨.errorMsg ("Unsupported curve : " ++ addressKey.curve
                    ++ ". Only Secp256K1 && Ed25519 are supported."),
                 events, some transaction⟩

/-! ## Helper lemmas -/

/-- The `TypeID.List` branch maps `sanitiseNestedLists` over the elements,
exactly as the source's `elements.map((member) => sanitiseNestedLists(member))`. -/
theorem sanitiseElements_eq_map (l : List CLValue) :
    sanitiseElements l = l.map sanitiseNestedLists := by
  induction l with
  | nil => rfl
  | cons v vs ih => simp [sanitiseElements, sanitiseNestedLists, ih]

/-- The `Tuple2` branch equals the source's `value().map(sanitiseNestedLists)`. -/
theorem parseDeployArg_tuple2 (fst snd : CLValue) :
    parseDeployArg (.tuple2 fst snd) = .arr [sanitiseNestedLists fst, sanitiseNestedLists snd] := rfl

/-- The `Tuple3` branch equals the source's `value().map(sanitiseNestedLists)`. -/
theorem parseDeployArg_tuple3 (fst snd trd : CLValue) :
    parseDeployArg (.tuple3 fst snd trd)
      = .arr [sanitiseNestedLists fst, sanitiseNestedLists snd, sanitiseNestedLists trd] := rfl

/-- Lookup in a display object (first entry with the given key). -/
def lookupArg (obj : List (String × ArgVal)) (key : String) : Option ArgVal :=
  (List.find? (fun p => p.1 == key) obj).map (fun p => p.2)

theorem insertObj_mem_key (obj : List (String × ArgVal)) (key : String) (v : ArgVal) :
    ∀ p ∈ insertObj obj key v, p.1 = key → p.2 = v := by
  intro p hp hkey
  unfold insertObj at hp
  by_cases hany : obj.any (fun q => q.1 == key)
  · simp only [hany, if_true] at hp
    rcases List.mem_map.mp hp with ⟨q, _, hq⟩
    by_cases hqk : q.1 == key
    · simp [hqk] at hq; rw [← hq]
    · simp [hqk] at hq; rw [← hq] at hkey; simp at hqk; exact absurd hkey hqk
  · simp only [hany, if_false] at hp
    rcases List.mem_append.mp hp with hmem | hmem
    · exfalso
      exact hany (List.any_eq_true.mpr ⟨p, hmem, by simp [hkey]⟩)
    · simp at hmem; rw [hmem]

theorem insertObj_exists_key (obj : List (String × ArgVal)) (key : String) (v : ArgVal) :
    ∃ p ∈ insertObj obj key v, p.1 = key ∧ p.2 = v := by
  unfold insertObj
  by_cases hany : obj.any (fun q => q.1 == key)
  · simp only [hany, if_true]
    rcases List.any_eq_true.mp hany with ⟨q, hq, hqk⟩
    exact ⟨(key, v), List.mem_map.mpr ⟨q, hq, by simp [hqk]⟩, rfl, rfl⟩
  · simp only [hany, if_false]
    exact ⟨(key, v), List.mem_append.mpr (Or.inr (by simp)), rfl, rfl⟩

/-! ## Claims -/

/-- C2 counterexample: the claim expects `convertMotesToCasper "10000000000"`
to render as `"10"` (display `"10 CSPR"`), but ethers v5 `FixedNumber`
formatting always keeps at least one fractional digit, so the code produces
`"10.0"` (display `"10.0 CSPR"`). -/
theorem convertMotesToCasper_ten_cex :
    convertMotesToCasper "10000000000" = "10.0" ∧
    convertMotesToCasper "10000000000" ≠ "10" := by decide

/-- C2 (amended): motes conversion is exact decimal fixed-point division by
10^9 (18 decimal places, truncating): `"10000000000"` renders `"10.0"` (hence
display `"10.0 CSPR"`, with a trailing `.0` kept by the `FixedNumber`
formatter), `"1"` renders `"0.000000001"` (9 decimal places), and any
malformed numeric string (one `parseFixed` rejects) yields `"0"` without
failing. -/
theorem convertMotesToCasper_spec :
    convertMotesToCasper "10000000000" = "10.0" ∧
    convertMotesToCasper "1" = "0.000000001" ∧
    ∀ s, parseFixed18 s = none → convertMotesToCasper s = "0" := by
  refine ⟨by decide, by decide, fun s h => ?_⟩
  simp [convertMotesToCasper, h]

theorem convertMotesToCasper_spec_witness :
    parseFixed18 "not-a-number" = none ∧ convertMotesToCasper "not-a-number" = "0" :=
  ⟨by decide, convertMotesToCasper_spec.2.2 "not-a-number" (by decide)⟩

/-- C4 counterexample: the formatter can return an empty display value for a
supported tag — a `Map` with no entries renders as the empty string (and a
`PublicKey` whose key is absent renders `""` as well), refuting
"returns a non-empty display value". -/
theorem parseDeployArg_empty_cex :
    parseDeployArg (CLValue.map []) = .str "" ∧
    parseDeployArg (CLValue.publicKey none) = .str "" := by decide

/-- C4 (amended): for every supported TypedValue tag the formatter returns a
display value without failing — one defined output per tag, per the dispatch
table (the value may be empty, e.g. for an empty Map or an absent public
key) — and for every value with an unrecognized tag it falls back to the
value's generic string representation (or the account hash's prefixed string
form) rather than propagating an error. -/
theorem parseDeployArg_never_fails :
    (parseDeployArg CLValue.unit = .str "CLValue Unit") ∧
    (∀ r, parseDeployArg (.key r) = .str r) ∧
    (∀ r, parseDeployArg (.uref r) = .str r) ∧
    (∀ v t e, parseDeployArg (.option (some v) t e) = parseDeployArg v) ∧
    (∀ t e, parseDeployArg (.option none t e) = .str (e ++ " " ++ t)) ∧
    (∀ vt elems, parseDeployArg (.list vt elems) = .arr (elems.map sanitiseNestedLists)) ∧
    (∀ r, parseDeployArg (.byteArray r) = .str r) ∧
    (∀ ok v, parseDeployArg (.result ok v)
      = .str ((if ok then "OK:" else "ERR:") ++ " " ++ displayToString (parseDeployArg v))) ∧
    (∀ entries, parseDeployArg (.map entries) = .str (parseMapEntries entries)) ∧
    (∀ v, parseDeployArg (.tuple1 v) = parseDeployArg v) ∧
    (∀ a b, parseDeployArg (.tuple2 a b) = .arr [sanitiseNestedLists a, sanitiseNestedLists b]) ∧
    (∀ a b c, parseDeployArg (.tuple3 a b c)
      = .arr [sanitiseNestedLists a, sanitiseNestedLists b, sanitiseNestedLists c]) ∧
    (∀ h, parseDeployArg (.publicKey h) = .str (h.getD "")) ∧
    (∀ r, parseDeployArg (.accountHash r) = .str r) ∧
    (∀ r, parseDeployArg (.raw r) = .str r) := by
  refine ⟨rfl, fun r => rfl, fun r => rfl, fun v t e => rfl, fun t e => rfl,
    fun vt elems => ?_, fun r => rfl, fun ok v => rfl, fun entries => rfl,
    fun v => rfl, fun a b => rfl, fun a b c => rfl, fun h => rfl, fun r => rfl,
    fun r => rfl⟩
  rw [parseDeployArg, sanitiseElements_eq_map]

/-- C6: after attaching a signature, validation runs on the signed
transaction: success returns the signed transaction's canonical JSON wire
form, failure returns the error result while the signature stays attached to
the (returned, mutated) transaction object. -/
theorem addSignatureAndValidateTransaction_spec (validate : Transaction → Bool)
    (toJson : Transaction → String) (transaction : Transaction)
    (signature : SigBytes) (publicKeyHex : String) :
    (validate (setSignature transaction signature publicKeyHex) = true →
      addSignatureAndValidateTransaction validate toJson transaction signature publicKeyHex
        = (setSignature transaction signature publicKeyHex,
           .deployJson (toJson (setSignature transaction signature publicKeyHex)))) ∧
    (validate (setSignature transaction signature publicKeyHex) = false →
      addSignatureAndValidateTransaction validate toJson transaction signature publicKeyHex
        = (setSignature transaction signature publicKeyHex,
           .errorMsg "Unable to verify deploy after signature.") ∧
      (setSignature transaction signature publicKeyHex).approvals
        = [⟨publicKeyHex, signature⟩]) := by
  constructor
  · intro h; simp [addSignatureAndValidateTransaction, h]
  · intro h; exact ⟨by simp [addSignatureAndValidateTransaction, h], rfl⟩

/-- A concrete signature value used by witnesses. -/
def sigW : SigBytes := ⟨.ed25519Detached, .rawBytes [1, 2], [3, 4]⟩

theorem addSignatureAndValidateTransaction_spec_witness :
    ((fun _ => false : Transaction → Bool) (setSignature {} sigW "02aa") = false) ∧
    (addSignatureAndValidateTransaction (fun _ => false) (fun _ => "wire") {} sigW "02aa"
        = (setSignature {} sigW "02aa", .errorMsg "Unable to verify deploy after signature.") ∧
      (setSignature {} sigW "02aa").approvals = [⟨"02aa", sigW⟩]) :=
  ⟨rfl, (addSignatureAndValidateTransaction_spec (fun _ => false) (fun _ => "wire")
      {} sigW "02aa").2 rfl⟩

/-! ## Decoder branch lemmas -/

/-- The legacy-deploy view produced when the session's argument table builds
successfully. -/
def deployView (t : Transaction) (sk : String) (d : Deploy)
    (args : List (String × ArgVal)) : DeployView :=
  { deployHash := bytesToHex t.hash
    signingKey := sk
    account := initiatorAccount t.initiatorAddr
    bodyHash := d.header.bodyHashHex
    chainName := t.chainName
    timestamp := t.timestampDisplay
    gasPrice := some (natDec d.header.gasPrice)
    deployType := classifySession d
    deployArgs := args }

theorem transactionToObject_deploy_ok (t : Transaction) (sk : String) (d : Deploy)
    (args : List (String × ArgVal))
    (hdeploy : t.deploy = some d) (hargs : sessionDeployArgs d.session = .ok args) :
    transactionToObject t sk = .ok (deployView t sk d args) := by
  simp [transactionToObject, hdeploy, hargs, Except.map, deployView]

theorem transactionToObject_deploy_error (t : Transaction) (sk : String) (d : Deploy)
    (e : String)
    (hdeploy : t.deploy = some d) (hargs : sessionDeployArgs d.session = .error e) :
    transactionToObject t sk = .error e := by
  simp [transactionToObject, hdeploy, hargs, Except.map]

/-! ## Transfer decoding (C3) -/

/-- C3 (amended): for every legacy deploy whose session is a transfer, the
decoder yields kind label `"Transfer"` and a fixed display map whose entries
are exactly `Recipient` (the raw target argument's own formatted string,
possibly absent), `Amount` (the motes amount put through the fixed-point
division by 10^9, with unit suffix `" CSPR"`), `Motes` (the raw integer
string) and `Transfer ID` (the raw id argument's formatted string, possibly
absent). -/
theorem transfer_view_spec (t : Transaction) (sk : String) (d : Deploy)
    (tr : TransferDeployItem)
    (hdeploy : t.deploy = some d) (htransfer : d.session.transfer = some tr) :
    ∃ view, transactionToObject t sk = .ok view ∧
      view.deployType = "Transfer" ∧
      view.deployArgs =
        [("Recipient", optToArg ((argsGet tr.args "target").map clvToString)),
         ("Amount", .s (convertMotesToCasper
            (((argsGet tr.args "amount").map clvToString).getD "") ++ " CSPR")),
         ("Motes", .s (((argsGet tr.args "amount").map clvToString).getD "")),
         ("Transfer ID", optToArg ((argsGet tr.args "id").map clvToString))] := by
  have hargs : sessionDeployArgs d.session = .ok (parseTransferData tr) := by
    simp [sessionDeployArgs, htransfer]
  refine ⟨_, transactionToObject_deploy_ok t sk d _ hdeploy hargs, ?_, rfl⟩
  show classifySession d = "Transfer"
  simp [classifySession, Deploy.isTransfer, htransfer]

/-- The transfer scenario of the spec: target public key, amount
`"10000000000000"` motes, transfer id `35`. -/
def transferFixture : TransferDeployItem :=
  ⟨[("amount", .raw "10000000000000"),
    ("target", .publicKey
      (some "010068920746ecf5870e18911ee1fc5db975e0e97fffcbbf52f5045ad6c9838d2f")),
    ("id", .option (some (.raw "35")) "(Option: U64)" "35")]⟩

/-- A legacy deploy carrying the transfer scenario. -/
def transferTx : Transaction :=
  { deploy := some { session := { transfer := some transferFixture } } }

/-- C3 counterexample: on the spec's transfer scenario (amount
`"10000000000000"`, id `35`) the decoded `Amount` entry is
`"10000.0 CSPR"`, not `"10000 CSPR"` as the claim states. -/
theorem transfer_scenario_amount_cex :
    (transactionToObject transferTx "sk").toOption.map
        (fun view => lookupArg view.deployArgs "Amount")
      = some (some (.s "10000.0 CSPR")) ∧
    ArgVal.s "10000.0 CSPR" ≠ ArgVal.s "10000 CSPR" := by decide

theorem transfer_view_spec_witness :
    transferTx.deploy = some { session := { transfer := some transferFixture } } ∧
    (∃ view, transactionToObject transferTx "sk" = .ok view ∧
      view.deployType = "Transfer" ∧
      view.deployArgs =
        [("Recipient", optToArg ((argsGet transferFixture.args "target").map clvToString)),
         ("Amount", .s (convertMotesToCasper
            (((argsGet transferFixture.args "amount").map clvToString).getD "") ++ " CSPR")),
         ("Motes", .s (((argsGet transferFixture.args "amount").map clvToString).getD "")),
         ("Transfer ID", optToArg ((argsGet transferFixture.args "id").map clvToString))]) :=
  ⟨rfl, transfer_view_spec transferTx "sk" _ transferFixture rfl rfl⟩

/-! ## Session-kind classification (C7) -/

/-- C7: the legacy-deploy decoder classifies the kind as exactly one of the
four labels, by session-variant inspection in priority order: a transfer
session always yields `"Transfer"` regardless of all other session fields;
module bytes come next; the two stored-contract sub-variants yield
`"Contract Call"`; the versioned sub-variants land in the final
`"Contract Package Call"` branch; and every successfully decoded legacy
deploy carries one of the four labels. -/
theorem classifySession_priority (t : Transaction) (sk : String) (d : Deploy)
    (hdeploy : t.deploy = some d) :
    (∀ tr, d.session.transfer = some tr →
      ∃ view, transactionToObject t sk = .ok view ∧ view.deployType = "Transfer") ∧
    (∀ mb, d.session.transfer = none → d.session.moduleBytes = some mb →
      ∃ view, transactionToObject t sk = .ok view ∧ view.deployType = "WASM-Based Deploy") ∧
    (d.session.transfer = none → d.session.moduleBytes = none →
      d.session.storedContractByHash.isSome ∨ d.session.storedContractByName.isSome →
      ∃ view, transactionToObject t sk = .ok view ∧ view.deployType = "Contract Call") ∧
    (d.session.transfer = none → d.session.moduleBytes = none →
      d.session.storedContractByHash = none → d.session.storedContractByName = none →
      d.session.storedVersionedContractByHash.isSome ∨
        d.session.storedVersionedContractByName.isSome →
      ∃ view, transactionToObject t sk = .ok view ∧
        view.deployType = "Contract Package Call") ∧
    (∀ view, transactionToObject t sk = .ok view →
      view.deployType = "Transfer" ∨ view.deployType = "WASM-Based Deploy" ∨
      view.deployType = "Contract Call" ∨ view.deployType = "Contract Package Call") := by
  have hok : ∀ args, sessionDeployArgs d.session = .ok args →
      ∃ view, transactionToObject t sk = .ok view ∧
        view.deployType = classifySession d := fun args hargs =>
    ⟨_, transactionToObject_deploy_ok t sk d args hdeploy hargs, rfl⟩
  refine ⟨?_, ?_, ?_, ?_, ?_⟩
  · intro tr htr
    rcases hok (parseTransferData tr) (by simp [sessionDeployArgs, htr]) with ⟨view, hview, hty⟩
    have hcl : classifySession d = "Transfer" := by
      simp [classifySession, Deploy.isTransfer, htr]
    exact ⟨view, hview, hty.trans hcl⟩
  · intro mb h1 h2
    rcases hok (insertParsedArgs [] mb.args) (by simp [sessionDeployArgs, h1, h2])
      with ⟨view, hview, hty⟩
    have hcl : classifySession d = "WASM-Based Deploy" := by
      simp [classifySession, Deploy.isTransfer, ExecutableDeployItem.isModuleBytes, h1, h2]
    exact ⟨view, hview, hty.trans hcl⟩
  · intro h1 h2 h3
    have hty : classifySession d = "Contract Call" := by
      rcases h3 with h | h <;>
        simp [classifySession, Deploy.isTransfer, ExecutableDeployItem.isModuleBytes,
          ExecutableDeployItem.isStoredContractByHash,
          ExecutableDeployItem.isStoredContractByName, h1, h2, h]
    have hstored : ∃ sc, storedContractOf d.session = some sc := by
      rcases h3 with h | h
      · rcases Option.isSome_iff_exists.mp h with ⟨sc, hsc⟩
        exact ⟨sc, by simp [storedContractOf, hsc]⟩
      · rcases Option.isSome_iff_exists.mp h with ⟨sc, hsc⟩
        cases hbh : d.session.storedContractByHash with
        | some sc2 => exact ⟨sc2, by simp [storedContractOf, hbh]⟩
        | none => exact ⟨sc, by simp [storedContractOf, hbh, hsc]⟩
    rcases hstored with ⟨sc, hsc⟩
    rcases hok (insertObj (insertParsedArgs [] sc.args) "Entry Point" (.s sc.entryPoint))
      (by simp [sessionDeployArgs, h1, h2, hsc]) with ⟨view, hview, hty2⟩
    exact ⟨view, hview, hty2.trans hty⟩
  · intro h1 h2 h3 h4 h5
    have hty : classifySession d = "Contract Package Call" := by
      simp [classifySession, Deploy.isTransfer, ExecutableDeployItem.isModuleBytes,
        ExecutableDeployItem.isStoredContractByHash,
        ExecutableDeployItem.isStoredContractByName, h1, h2, h3, h4]
    have hstored : ∃ sc, storedContractOf d.session = some sc := by
      rcases h5 with h | h
      · rcases Option.isSome_iff_exists.mp h with ⟨sc, hsc⟩
        exact ⟨sc, by simp [storedContractOf, h3, h4, hsc]⟩
      · rcases Option.isSome_iff_exists.mp h with ⟨sc, hsc⟩
        cases hvbh : d.session.storedVersionedContractByHash with
        | some sc2 => exact ⟨sc2, by simp [storedContractOf, h3, h4, hvbh]⟩
        | none => exact ⟨sc, by simp [storedContractOf, h3, h4, hvbh, hsc]⟩
    rcases hstored with ⟨sc, hsc⟩
    rcases hok (insertObj (insertParsedArgs [] sc.args) "Entry Point" (.s sc.entryPoint))
      (by simp [sessionDeployArgs, h1, h2, hsc]) with ⟨view, hview, hty2⟩
    exact ⟨view, hview, hty2.trans hty⟩
  · intro view hview
    have hmem : view.deployType = classifySession d := by
      cases hargs : sessionDeployArgs d.session with
      | error e =>
        rw [transactionToObject_deploy_error t sk d e hdeploy hargs] at hview
        cases hview
      | ok args =>
        rw [transactionToObject_deploy_ok t sk d args hdeploy hargs] at hview
        injection hview with hview
        rw [← hview]
        rfl
    rw [hmem]
    unfold classifySession
    split_ifs <;> simp

theorem classifySession_priority_witness :
    transferTx.deploy = some { session := { transfer := some transferFixture } } ∧
    (∃ view, transactionToObject transferTx "sk" = .ok view ∧
      view.deployType = "Transfer") :=
  ⟨rfl, (classifySession_priority transferTx "sk" _ rfl).1 transferFixture rfl⟩

/-! ## Unparseable stored-contract sessions (C8) -/

/-- C8: a legacy deploy whose session populates none of the recognised
variants (so the code falls through the four stored-contract sub-variant
checks) makes decoding fail with the `Stored Contract could not be parsed`
error carrying the raw serialized session bytes, and no transaction view is
produced. -/
theorem unparseable_session_spec (t : Transaction) (sk : String) (d : Deploy)
    (hdeploy : t.deploy = some d)
    (h1 : d.session.transfer = none) (h2 : d.session.moduleBytes = none)
    (h3 : d.session.storedContractByHash = none)
    (h4 : d.session.storedContractByName = none)
    (h5 : d.session.storedVersionedContractByHash = none)
    (h6 : d.session.storedVersionedContractByName = none) :
    transactionToObject t sk = .error (unparseableSessionMsg d.session) ∧
    unparseableSessionMsg d.session
      = "Stored Contract could not be parsed.\n          Provided session code: "
        ++ uint8ArrayToString d.session.sessionBytes ∧
    ∀ view, transactionToObject t sk ≠ .ok view := by
  have hargs : sessionDeployArgs d.session = .error (unparseableSessionMsg d.session) := by
    simp [sessionDeployArgs, h1, h2, storedContractOf, h3, h4, h5, h6]
  have herr := transactionToObject_deploy_error t sk d _ hdeploy hargs
  refine ⟨herr, rfl, fun view hview => ?_⟩
  rw [herr] at hview
  cases hview

/-- A deploy whose session populates no variant at all. -/
def emptySessionTx : Transaction :=
  { deploy := some { session := { sessionBytes := [0, 1, 255] } } }

theorem unparseable_session_spec_witness :
    emptySessionTx.deploy = some { session := { sessionBytes := [0, 1, 255] } } ∧
    (transactionToObject emptySessionTx "sk"
        = .error (unparseableSessionMsg { sessionBytes := [0, 1, 255] }) ∧
      unparseableSessionMsg { sessionBytes := [0, 1, 255] }
        = "Stored Contract could not be parsed.\n          Provided session code: "
          ++ uint8ArrayToString [0, 1, 255] ∧
      ∀ view, transactionToObject emptySessionTx "sk" ≠ .ok view) :=
  ⟨rfl, unparseable_session_spec emptySessionTx "sk" _ rfl rfl rfl rfl rfl rfl rfl⟩

/-! ## `Entry Point` overwriting (C10) -/

/-- C10: for a stored-contract session the `Entry Point` display entry is
assigned after all declared arguments, so when the session declares an
argument literally named `"Entry Point"`, every `"Entry Point"` entry of the
final display map holds the session's entry-point name — the declared
argument's formatted value is overwritten and never shown. -/
theorem entry_point_overwrite_spec (t : Transaction) (sk : String) (d : Deploy)
    (sc : StoredContract) (declared : CLValue)
    (hdeploy : t.deploy = some d)
    (h1 : d.session.transfer = none) (h2 : d.session.moduleBytes = none)
    (hsc : storedContractOf d.session = some sc)
    (_hdecl : ("Entry Point", declared) ∈ sc.args) :
    ∃ view, transactionToObject t sk = .ok view ∧
      (∃ p ∈ view.deployArgs, p.1 = "Entry Point" ∧ p.2 = .s sc.entryPoint) ∧
      (∀ p ∈ view.deployArgs, p.1 = "Entry Point" → p.2 = .s sc.entryPoint) := by
  have hargs : sessionDeployArgs d.session
      = .ok (insertObj (insertParsedArgs [] sc.args) "Entry Point" (.s sc.entryPoint)) := by
    simp [sessionDeployArgs, h1, h2, hsc]
  refine ⟨_, transactionToObject_deploy_ok t sk d _ hdeploy hargs, ?_, ?_⟩
  · exact insertObj_exists_key _ _ _
  · exact insertObj_mem_key _ _ _

/-- A stored contract that declares an argument literally named
`"Entry Point"`. -/
def clashContract : StoredContract :=
  { args := [("Entry Point", .raw "user-supplied")], entryPoint := "transfer" }

/-- A stored-contract (by hash) deploy carrying `clashContract`. -/
def entryPointClashTx : Transaction :=
  { deploy := some { session := { storedContractByHash := some clashContract } } }

theorem entry_point_overwrite_spec_witness :
    entryPointClashTx.deploy = some { session := { storedContractByHash := some clashContract } } ∧
    storedContractOf { storedContractByHash := some clashContract } = some clashContract ∧
    ("Entry Point", CLValue.raw "user-supplied") ∈ clashContract.args ∧
    (∃ view, transactionToObject entryPointClashTx "sk" = .ok view ∧
      (∃ p ∈ view.deployArgs, p.1 = "Entry Point" ∧ p.2 = .s clashContract.entryPoint) ∧
      (∀ p ∈ view.deployArgs, p.1 = "Entry Point" → p.2 = .s clashContract.entryPoint)) :=
  ⟨rfl, rfl, by simp [clashContract],
    entry_point_overwrite_spec entryPointClashTx "sk" _ clashContract
      (.raw "user-supplied") rfl rfl rfl rfl (by simp [clashContract])⟩

/-! ## Curve dispatch in `sign` (C1) -/

/-- C1: once the key is derived, the transaction parsed and decoded, and the
user has confirmed, `sign` dispatches on the curve tag: `"ed25519"` signs the
raw transaction-hash bytes directly with the detached-signature scheme;
`"secp256k1"` signs the SHA-256 digest of the raw hash bytes with the
deterministic ECDSA scheme; any other curve tag returns the
`Unsupported curve` error naming the received curve, with no signature
primitive invoked and the transaction left unsigned. -/
theorem sign_curve_dispatch (env : SignEnv) (deployJson : Except String Transaction)
    (addressIndex : Int) (addressKey : BIP44Key) (publicKeyHex : String)
    (transaction : Transaction) (privateKeyBytes : List Nat)
    (hderive : env.deriveKey addressIndex = .ok addressKey)
    (hpub : addressKey.pubKeyHexResult = some publicKeyHex)
    (hjson : deployJson = .ok transaction)
    (hdecode : (transactionToObject transaction publicKeyHex).isOk = true)
    (hconfirm : env.confirm = true)
    (hpriv : addressKey.privateKeyBytes = some privateKeyBytes) :
    (addressKey.curve = "ed25519" →
      (sign env deployJson addressIndex).events
        = [.keyDerivation addressIndex, .keyDerivation addressIndex, .promptShown,
           .primitiveSign .ed25519Detached (.rawBytes transaction.hash),
           .attachedSignature] ∧
      (sign env deployJson addressIndex).finalTx
        = some (setSignature transaction
            ⟨.ed25519Detached, .rawBytes transaction.hash, privateKeyBytes⟩ publicKeyHex)) ∧
    (addressKey.curve = "secp256k1" →
      (sign env deployJson addressIndex).events
        = [.keyDerivation addressIndex, .keyDerivation addressIndex, .promptShown,
           .primitiveSign .secp256k1Ecdsa (.sha256Digest transaction.hash),
           .attachedSignature] ∧
      (sign env deployJson addressIndex).finalTx
        = some (setSignature transaction
            ⟨.secp256k1Ecdsa, .sha256Digest transaction.hash, privateKeyBytes⟩ publicKeyHex)) ∧
    (addressKey.curve ≠ "ed25519" → addressKey.curve ≠ "secp256k1" →
      (sign env deployJson addressIndex).result
        = .errorMsg ("Unsupported curve : " ++ addressKey.curve
            ++ ". Only Secp256K1 && Ed25519 are supported.") ∧
      (∀ alg payload, Event.primitiveSign alg payload ∉ (sign env deployJson addressIndex).events) ∧
      (sign env deployJson addressIndex).finalTx = some transaction) := by
  rcases hview : transactionToObject transaction publicKeyHex with e | view
  · exact absurd hdecode (by rw [hview]; exact Bool.false_ne_true)
  · refine ⟨?_, ?_, ?_⟩
    · intro hcurve
      constructor
      · simp [sign, getCSPRAddress, hderive, hpub, hjson, hview, hconfirm, hpriv, hcurve,
          addSignatureAndValidateTransaction]
      · cases hval : env.validate (setSignature transaction
            ⟨.ed25519Detached, .rawBytes transaction.hash, privateKeyBytes⟩ publicKeyHex) <;>
          simp [sign, getCSPRAddress, hderive, hpub, hjson, hview, hconfirm, hpriv, hcurve,
            addSignatureAndValidateTransaction, hval]
    · intro hcurve
      constructor
      · simp [sign, getCSPRAddress, hderive, hpub, hjson, hview, hconfirm, hpriv, hcurve,
          addSignatureAndValidateTransaction]
      · cases hval : env.validate (setSignature transaction
            ⟨.secp256k1Ecdsa, .sha256Digest transaction.hash, privateKeyBytes⟩ publicKeyHex) <;>
          simp [sign, getCSPRAddress, hderive, hpub, hjson, hview, hconfirm, hpriv, hcurve,
            addSignatureAndValidateTransaction, hval]
    · intro hcurve1 hcurve2
      refine ⟨?_, ?_, ?_⟩ <;>
        simp [sign, getCSPRAddress, hderive, hpub, hjson, hview, hconfirm, hpriv,
          hcurve1, hcurve2]

/-- A fixed BIP44 key whose curve is neither supported one. -/
def unsupportedKey : BIP44Key :=
  { curve := "bls12-381", privateKeyBytes := some [7, 7], pubKeyHexResult := some "02feed" }

/-- An environment whose deriver yields `unsupportedKey` for non-negative
indices and throws the key-tree error for negative ones; the user confirms. -/
def envUnsupported : SignEnv :=
  { deriveKey := fun index =>
      if index < 0 then .error "Invalid BIP-32 index: Must be a non-negative integer."
      else .ok unsupportedKey
    confirm := true
    validate := fun _ => true
    toJson := fun _ => "wire" }

theorem sign_curve_dispatch_witness :
    envUnsupported.deriveKey 0 = .ok unsupportedKey ∧
    unsupportedKey.pubKeyHexResult = some "02feed" ∧
    (transactionToObject transferTx "02feed").isOk = true ∧
    envUnsupported.confirm = true ∧
    unsupportedKey.privateKeyBytes = some [7, 7] ∧
    ((sign envUnsupported (.ok transferTx) 0).result
        = .errorMsg ("Unsupported curve : " ++ unsupportedKey.curve
            ++ ". Only Secp256K1 && Ed25519 are supported.") ∧
      (∀ alg payload,
        Event.primitiveSign alg payload ∉ (sign envUnsupported (.ok transferTx) 0).events) ∧
      (sign envUnsupported (.ok transferTx) 0).finalTx = some transferTx) :=
  ⟨rfl, rfl, by decide, rfl, rfl,
    (sign_curve_dispatch envUnsupported (.ok transferTx) 0 unsupportedKey "02feed"
        transferTx [7, 7] rfl rfl rfl (by decide) rfl rfl).2.2
      (by decide) (by decide)⟩

/-! ## Declined confirmation (C5) -/

/-- C5: when the user rejects the confirmation dialog, `sign` returns the
boolean `false` (not an error result), invokes no signature primitive,
attaches nothing, and leaves the parsed transaction object unchanged. -/
theorem sign_declined_spec (env : SignEnv) (deployJson : Except String Transaction)
    (addressIndex : Int) (addressKey : BIP44Key) (publicKeyHex : String)
    (transaction : Transaction)
    (hderive : env.deriveKey addressIndex = .ok addressKey)
    (hpub : addressKey.pubKeyHexResult = some publicKeyHex)
    (hjson : deployJson = .ok transaction)
    (hdecode : (transactionToObject transaction publicKeyHex).isOk = true)
    (hconfirm : env.confirm = false) :
    (sign env deployJson addressIndex).result = .declinedFalse ∧
    (∀ alg payload, Event.primitiveSign alg payload ∉ (sign env deployJson addressIndex).events) ∧
    Event.attachedSignature ∉ (sign env deployJson addressIndex).events ∧
    (sign env deployJson addressIndex).finalTx = some transaction ∧
    ∀ t, (sign env deployJson addressIndex).finalTx = some t → t.approvals = transaction.approvals := by
  rcases hview : transactionToObject transaction publicKeyHex with e | view
  · exact absurd hdecode (by rw [hview]; exact Bool.false_ne_true)
  · refine ⟨?_, ?_, ?_, ?_, ?_⟩ <;>
      simp [sign, getCSPRAddress, hderive, hpub, hjson, hview, hconfirm]

/-- An environment that declines the confirmation, over an ed25519 key. -/
def envDeclined : SignEnv :=
  { deriveKey := fun index =>
      if index < 0 then .error "Invalid BIP-32 index: Must be a non-negative integer."
      else .ok { curve := "ed25519", privateKeyBytes := some [9], pubKeyHexResult := some "01ab" }
    confirm := false
    validate := fun _ => true
    toJson := fun _ => "wire" }

theorem sign_declined_spec_witness :
    envDeclined.deriveKey 0
      = .ok { curve := "ed25519", privateKeyBytes := some [9], pubKeyHexResult := some "01ab" } ∧
    (transactionToObject transferTx "01ab").isOk = true ∧
    envDeclined.confirm = false ∧
    ((sign envDeclined (.ok transferTx) 0).result = .declinedFalse ∧
      (∀ alg payload,
        Event.primitiveSign alg payload ∉ (sign envDeclined (.ok transferTx) 0).events) ∧
      Event.attachedSignature ∉ (sign envDeclined (.ok transferTx) 0).events ∧
      (sign envDeclined (.ok transferTx) 0).finalTx = some transferTx ∧
      ∀ t, (sign envDeclined (.ok transferTx) 0).finalTx = some t →
        t.approvals = transferTx.approvals) :=
  ⟨rfl, by decide, rfl,
    sign_declined_spec envDeclined (.ok transferTx) 0
      { curve := "ed25519", privateKeyBytes := some [9], pubKeyHexResult := some "01ab" }
      "01ab" transferTx rfl rfl rfl (by decide) rfl⟩

/-! ## Invalid derivation index fails fast (C9) -/

/-- C9: when the derivation index is invalid (negative) and the deriver
rejects it, `sign` fails by propagating the key-derivation error thrown
before the `try` block — no transaction is parsed, no confirmation prompt is
shown, no hash is signed and no signature is attached. -/
theorem sign_invalid_index_spec (env : SignEnv) (deployJson : Except String Transaction)
    (addressIndex : Int) (e : String)
    (_hneg : addressIndex < 0)
    (hderive : env.deriveKey addressIndex = .error e) :
    (sign env deployJson addressIndex).result = .threw e ∧
    (sign env deployJson addressIndex).events = [.keyDerivation addressIndex] ∧
    Event.promptShown ∉ (sign env deployJson addressIndex).events ∧
    (∀ alg payload, Event.primitiveSign alg payload ∉ (sign env deployJson addressIndex).events) ∧
    Event.attachedSignature ∉ (sign env deployJson addressIndex).events ∧
    (sign env deployJson addressIndex).finalTx = none := by
  refine ⟨?_, ?_, ?_, ?_, ?_, ?_⟩ <;> simp [sign, getCSPRAddress, hderive]

theorem sign_invalid_index_spec_witness :
    (-1 : Int) < 0 ∧
    envDeclined.deriveKey (-1)
      = .error "Invalid BIP-32 index: Must be a non-negative integer." ∧
    ((sign envDeclined (.ok transferTx) (-1)).result
        = .threw "Invalid BIP-32 index: Must be a non-negative integer." ∧
      (sign envDeclined (.ok transferTx) (-1)).events = [.keyDerivation (-1)] ∧
      Event.promptShown ∉ (sign envDeclined (.ok transferTx) (-1)).events ∧
      (∀ alg payload,
        Event.primitiveSign alg payload ∉ (sign envDeclined (.ok transferTx) (-1)).events) ∧
      Event.attachedSignature ∉ (sign envDeclined (.ok transferTx) (-1)).events ∧
      (sign envDeclined (.ok transferTx) (-1)).finalTx = none) :=
  ⟨by decide, rfl,
    sign_invalid_index_spec envDeclined (.ok transferTx) (-1)
      "Invalid BIP-32 index: Must be a non-negative integer." (by decide) rfl⟩

end CasperSnap
